import Mathlib

/-!
Shallow embedding of `src/lib/utils/azureEnvironmentManager.js` of
cellarise-package-manager, together with theorems checking the module's
natural-language specification against the code.

JavaScript conventions modelled here:
* a value that may be `null`/`undefined` is an `Option`; `R.isNil x` is
  `Option.isNone`;
* `R.isEmpty` on a string is equality with `""`;
* a computation that can raise an uncaught exception (so that the node
  callback is never invoked) is a `JsOutcome`;
* `Math.floor (Math.random () * 8)` is modelled by a parameter
  `draw : Nat` together with the hypothesis `draw ≤ 7` where it matters.
-/

namespace AzureEnvironmentManager

/-- Result of running a piece of JS code: either an uncaught exception was
thrown (`thrown`), in which case the node-style callback is never invoked,
or the code ran to completion with a value. -/
inductive JsOutcome (α : Type) where
  | thrown (msg : String)
  | completed (val : α)
deriving Repr, DecidableEq

/-- One entry of `siteConfig.connectionStrings` in the webapp template. -/
structure ConnEntry where
  name : String
  connectionString : String
  connType : String
deriving Repr, DecidableEq

/-- One entry of `siteConfig.appSettings` in the webapp template. -/
structure AppSetting where
  name : String
  value : String
deriving Repr, DecidableEq

/-- A `siteConfig` object (template side: all keys present).  Keys other
than the two arrays the code indexes into are kept abstractly as an
association list `otherSettings`. -/
structure SiteConfig where
  connectionStrings : List ConnEntry
  appSettings : List AppSetting
  otherSettings : List (String × String)
deriving Repr, DecidableEq

/-- The configured `azureConfig.webapp.siteConfig` override.  The code reads
`azureConfig.webapp.siteConfig.appSettings[2]` unconditionally (in
`getRedisAppConnectionString`), so `appSettings` is present; the
`connectionStrings` key may or may not be present in the config, hence the
`Option` (R.merge only overrides keys that are present). -/
structure SiteConfigOverride where
  connectionStrings : Option (List ConnEntry)
  appSettings : List AppSetting
  otherSettings : List (String × String)
deriving Repr, DecidableEq

/-- `azureConfig.webapp`. -/
structure WebappConfig where
  location : String
  serverFarmId : String
  siteConfig : SiteConfigOverride
deriving Repr, DecidableEq

/-- The azure configuration object returned by
`require("./config")("azure")[process.env.bamboo_azure_config_code]`.
Field `envPfx` embeds the source's `env_prefix` property. -/
structure AzureConfig where
  envPfx : String
  resource_group : Option String
  resource_type : String
  scm_user : String
  scm_password : String
  webapp : WebappConfig
deriving Repr, DecidableEq

/-- The pipeline context, restricted to what the module actually consumes:
the Jira issue key extracted from the current branch
(`jiraIssueManager.getJiraIssueKey(context)`, `none` when absent) and the
outputs of the external `mssqlDatabaseManager` collaborators, which are
keyed by the context. -/
structure Context where
  jiraIssueKey : Option String
  dbPrimaryConn0 : String
  dbPrimaryConn1 : String
  dbBackupConn0 : String
  dbBackupConn1 : String
  dbBackupSchema : String
deriving Repr, DecidableEq

/-- JavaScript `String.prototype.toLowerCase`, character by character (the
strings this module lowers are ASCII).  `String.toLower` computes the same
function but by well-founded recursion; this structural version lets the
theorems evaluate on concrete inputs. -/
def jsToLowerCase (s : String) : String :=
  ⟨s.data.map Char.toLower⟩

/-- `getWebsiteName(azureConfig, jiraIssueKey)` (source lines 301-306):

```js
if (R.isNil(jiraIssueKey) || jiraIssueKey === "") {
  return (azureConfig.env_prefix + "-qa").toLowerCase();
}
return (azureConfig.env_prefix + '-' + jiraIssueKey + "-qa").toLowerCase();
``` -/
def getWebsiteName (azureConfig : AzureConfig) (jiraIssueKey : Option String) : String :=
  if jiraIssueKey.isNone || jiraIssueKey == some "" then
    jsToLowerCase (azureConfig.envPfx ++ "-qa")
  else
    jsToLowerCase (azureConfig.envPfx ++ "-" ++ jiraIssueKey.getD "" ++ "-qa")

/-- `getWebsiteSCMURLWithUser(azureConfig, websiteName)` (lines 291-294). -/
def getWebsiteSCMURLWithUser (azureConfig : AzureConfig) (websiteName : String) : String :=
  "https://" ++ azureConfig.scm_user ++ "@" ++ websiteName
    ++ ".scm.azurewebsites.net:443/" ++ websiteName

/-- `getWebsiteSCMURLWithUserAndPass(azureConfig, websiteName)` (lines 296-299). -/
def getWebsiteSCMURLWithUserAndPass (azureConfig : AzureConfig) (websiteName : String) : String :=
  "https://" ++ (azureConfig.scm_user ++ ":" ++ azureConfig.scm_password) ++ "@" ++ websiteName
    ++ ".scm.azurewebsites.net:443/" ++ websiteName

/-- `getDeploymentUrl(context)` (lines 231-236): extracts the Jira issue key
(`|| ""` turns an absent key into the empty string), derives the website
name and returns the SCM URL with user only. -/
def getDeploymentUrl (azureConfig : AzureConfig) (context : Context) : String :=
  getWebsiteSCMURLWithUser azureConfig
    (getWebsiteName azureConfig (some (context.jiraIssueKey.getD "")))

/-- `getWebappUrl(context)` (lines 243-248). -/
def getWebappUrl (azureConfig : AzureConfig) (context : Context) : String :=
  "https://" ++ getWebsiteName azureConfig (some (context.jiraIssueKey.getD ""))
    ++ ".azurewebsites.net"

/-- What `getSubscriptionId` delivers to its node callback when it completes. -/
inductive SubscriptionCallback (Cred : Type) where
  | err (msg : String)
  | ok (credentials : Cred) (subscriptionId : String)
deriving Repr, DecidableEq

/-- An entry of the resolved `subscriptionClient.subscriptions.list()` array.
`subscriptionId` is `none` when the property is absent (`undefined`). -/
structure Subscription where
  subscriptionId : Option String
deriving Repr, DecidableEq

/-- `getSubscriptionId(context, credentials, callback)` (lines 48-61), as a
function of the resolved list.

```js
const subscriptionId = res[0].subscriptionId;
if (R.isNil(subscriptionId) || R.isEmpty(subscriptionId)) {
  callback("No subscriptions available for this user.");
  return;
}
callback(null, credentials, subscriptionId);
```

When `res` is empty, `res[0]` is `undefined` and reading `.subscriptionId`
throws a `TypeError` inside the promise handler; there is no rejection
handler, so the callback is never invoked (`JsOutcome.thrown`). -/
def getSubscriptionId {Cred : Type} (credentials : Cred) (res : List Subscription) :
    JsOutcome (SubscriptionCallback Cred) :=
  match res with
  | [] => .thrown "TypeError: Cannot read property subscriptionId of undefined"
  | s :: _ =>
    match s.subscriptionId with
    | none => .completed (.err "No subscriptions available for this user.")
    | some sid =>
      if sid = "" then .completed (.err "No subscriptions available for this user.")
      else .completed (.ok credentials sid)

/-- What `validateGroupAccess` delivers to its node callback. -/
inductive GroupCallback (Cred : Type) where
  | err (msg : String)
  | ok (credentials : Cred) (subscriptionId : String)
deriving Repr, DecidableEq

/-- An entry of the resolved `resourceClient.resourceGroups.list()` array. -/
structure ResourceGroup where
  name : String
deriving Repr, DecidableEq

/-- `validateGroupAccess(context, credentials, subscriptionId, callback)`
(lines 73-99), as a function of the configured resource group and the
resolved group list (`none` models a `null` resolution, guarded by
`R.isNil(groups)`).

The `resource_group` config check runs before the listing promise is
examined; on success the credentials and subscription id are passed
through unchanged. -/
def validateGroupAccess {Cred : Type} (azureConfig : AzureConfig) (credentials : Cred)
    (subscriptionId : String) (groups : Option (List ResourceGroup)) :
    JsOutcome (GroupCallback Cred) :=
  if azureConfig.resource_group.isNone || azureConfig.resource_group == some "" then
    .completed (.err "No resource_group has been specified in your config file.")
  else
    match groups with
    | none => .completed (.err "No groups available for this user.")
    | some gs =>
      if gs = [] then .completed (.err "No groups available for this user.")
      else
        let groupId := gs.filter (fun group => group.name == azureConfig.resource_group.getD "")
        if groupId = [] then
          .completed (.err "This user doesn't have access to the specified group.")
        else .completed (.ok credentials subscriptionId)

/-- The database-number selection inside `getRedisAppConnectionString`
(lines 253-260).  `draw` models `Math.floor(Math.random() * (max - min + 1))`
with `min = 2`, `max = 9`; since `Math.random()` ranges over `[0, 1)`,
`draw ≤ 7` in every execution.

```js
let databaseNumber = Math.floor(Math.random() * (max - min + 1)) + min;
if (websiteName === getWebsiteName(azureConfig, "")) {
  databaseNumber = 1;
}
``` -/
def redisDatabaseIndex (azureConfig : AzureConfig) (websiteName : String) (draw : Nat) : Nat :=
  let databaseNumber := draw + 2
  if websiteName = getWebsiteName azureConfig (some "") then 1 else databaseNumber

/-- `startsWithChars pat s` is true when `pat` is an initial segment of `s`. -/
def startsWithChars : List Char → List Char → Bool
  | [], _ => true
  | _ :: _, [] => false
  | p :: ps, c :: cs => p == c && startsWithChars ps cs

/-- First occurrence of `pat` in a character list: `some (before, after)`
splits the list around the leftmost match, `none` means no occurrence. -/
def splitFirst (pat : List Char) : List Char → Option (List Char × List Char)
  | [] => if startsWithChars pat [] then some ([], []) else none
  | c :: rest =>
    if startsWithChars pat (c :: rest) then some ([], (c :: rest).drop pat.length)
    else (splitFirst pat rest).map (fun p => (c :: p.1, p.2))

/-- JavaScript `String.prototype.replace` with a string pattern: replaces
only the first occurrence, and returns the string unchanged when the
pattern does not occur. -/
def jsReplaceFirst (s pat repl : String) : String :=
  match splitFirst pat.data s.data with
  | none => s
  | some p => ⟨p.1 ++ repl.data ++ p.2⟩

/-- `getRedisAppConnectionString(websiteName)` (lines 251-263): picks the
database number (see `redisDatabaseIndex`) and rewrites the configured
`appSettings[2].value`.  Reading `appSettings[2]` on a shorter array gives
`undefined` and the `.value` access throws. -/
def getRedisAppConnectionString (azureConfig : AzureConfig) (websiteName : String)
    (draw : Nat) : JsOutcome String :=
  match azureConfig.webapp.siteConfig.appSettings.get? 2 with
  | none => .thrown "TypeError: Cannot read property value of undefined"
  | some a =>
    .completed (jsReplaceFirst a.value "database=9"
      ("database=" ++ toString (redisDatabaseIndex azureConfig websiteName draw)))

/-- Overwrite the element at position `n`, leaving the list unchanged when
the index is out of range (the claims under study always supply in-range
indices). -/
def modifyNth {α : Type} (f : α → α) : Nat → List α → List α
  | _, [] => []
  | 0, x :: xs => f x :: xs
  | n + 1, x :: xs => x :: modifyNth f n xs

/-- Merge of two association lists where the second argument's bindings win
on key conflicts, as in `R.merge` for keys not modelled structurally. -/
def mergeAssoc (fst snd : List (String × String)) : List (String × String) :=
  snd ++ fst.filter (fun p => !(snd.any (fun q => q.1 == p.1)))

/-- `R.merge(azureEnvTemplate.siteConfig, R.clone(azureConfig.webapp.siteConfig))`
(line 170): a shallow merge in which the config's keys win whenever the
config provides them.  The config always provides `appSettings`; it provides
`connectionStrings` only when that key is present. -/
def mergeSiteConfig (tmpl : SiteConfig) (ov : SiteConfigOverride) : SiteConfig :=
  { connectionStrings := ov.connectionStrings.getD tmpl.connectionStrings
    appSettings := ov.appSettings
    otherSettings := mergeAssoc tmpl.otherSettings ov.otherSettings }

/-- The five positional overwrites of lines 172-176:

```js
azureEnvTemplate.siteConfig.connectionStrings[0].connectionString = getDbPrimaryConnectionString(context, 0);
azureEnvTemplate.siteConfig.connectionStrings[1].connectionString = getDbPrimaryConnectionString(context, 1);
azureEnvTemplate.siteConfig.appSettings[0].value = websiteName + ".azurewebsites.net";
azureEnvTemplate.siteConfig.appSettings[1].value = getDbBackupSchema(context);
azureEnvTemplate.siteConfig.appSettings[2].value = getRedisAppConnectionString(websiteName);
```

The external `getDbPrimaryConnectionString` / `getDbBackupSchema`
collaborators are consumed through the context; the already-computed Redis
connection string is passed in as `redis`. -/
def applySiteConfigOverwrites (sc : SiteConfig) (context : Context) (websiteName : String)
    (redis : String) : SiteConfig :=
  { sc with
    connectionStrings :=
      modifyNth (fun c => { c with connectionString := context.dbPrimaryConn1 }) 1
        (modifyNth (fun c => { c with connectionString := context.dbPrimaryConn0 }) 0
          sc.connectionStrings)
    appSettings :=
      modifyNth (fun a => { a with value := redis }) 2
        (modifyNth (fun a => { a with value := context.dbBackupSchema }) 1
          (modifyNth (fun a => { a with value := websiteName ++ ".azurewebsites.net" }) 0
            sc.appSettings)) }

/-- The webapp template loaded from `{templatesDir}/azure-specs/webapp.json`.
Fields other than the three the code touches are kept abstractly in
`otherFields`. -/
structure WebappTemplate where
  location : String
  serverFarmId : String
  siteConfig : SiteConfig
  otherFields : List (String × String)
deriving Repr, DecidableEq

/-- Lines 168-176 of `createOrUpdateEnvironment` as a value transformation:
overlay `location` and `serverFarmId` from config, merge `siteConfig`, then
apply the five positional overwrites (including the Redis connection-string
computation, which can throw when the config's `appSettings` array is too
short). -/
def buildAzureEnvTemplate (azureConfig : AzureConfig) (context : Context)
    (tmpl : WebappTemplate) (websiteName : String) (draw : Nat) :
    JsOutcome WebappTemplate :=
  match getRedisAppConnectionString azureConfig websiteName draw with
  | .thrown m => .thrown m
  | .completed redis =>
    .completed
      { tmpl with
        location := azureConfig.webapp.location
        serverFarmId := azureConfig.webapp.serverFarmId
        siteConfig :=
          applySiteConfigOverwrites
            (mergeSiteConfig tmpl.siteConfig azureConfig.webapp.siteConfig)
            context websiteName redis }

/-- How far `createOrUpdateEnvironment` (lines 153-200) gets before the
provisioning call:

* `thrown`: a synchronous exception escaped (the callback is never invoked
  and `webSiteClient.webApps.createOrUpdate` is never called);
* `invalidTemplate`: the `R.isNil(azureEnvTemplate)` guard fired and the
  callback received the error string together with the website name, again
  without any provisioning call;
* `provisioning`: the merged payload is submitted to the provisioning call. -/
inductive CreatePhase where
  | thrown (msg : String)
  | invalidTemplate (msg : String) (websiteName : String)
  | provisioning (payload : JsOutcome WebappTemplate)
deriving Repr, DecidableEq

/-- The template-loading prefix of `createOrUpdateEnvironment` (lines
160-176).  `loadResult` is the behaviour of
`require(path.join(cwd, directories.templates + "/azure-specs", "webapp.json"))`:
`Except.error` when `require` throws (file absent → `MODULE_NOT_FOUND`,
unparseable JSON → `SyntaxError`), `Except.ok none` when the module loads
to a nil value (the file parses to JSON `null`), and `Except.ok (some t)`
for a parsed template object. -/
def createOrUpdateEnvironmentLoadPhase (loadResult : Except String (Option WebappTemplate))
    (azureConfig : AzureConfig) (context : Context) (websiteName : String)
    (draw : Nat) : CreatePhase :=
  match loadResult with
  | .error m => .thrown m
  | .ok none => .invalidTemplate "Invalid azure environment" websiteName
  | .ok (some tmpl) =>
    .provisioning (buildAzureEnvTemplate azureConfig context tmpl websiteName draw)

/-- Observable behaviour of `deleteEnvironment` (lines 210-224), as a
function of the resolved infrastructure-delete result: the list of contexts
with which the external `deleteAllWebappDatabaseSchemaAndData` collaborator
is invoked, and the error (if any) delivered on the callback's error
channel.

```js
webSiteClient.webApps.deleteMethod(azureConfig.resource_group, websiteName, {"deleteMetrics": true})
  .then(() => { deleteAllWebappDatabaseSchemaAndData(context, callback); },
        (err) => { callback(err); });
``` -/
def deleteEnvironment (apiResult : Except String Unit) (context : Context) :
    List Context × Option String :=
  match apiResult with
  | .ok _ => ([context], none)
  | .error err => ([], some err)

/-- The text written by `createAzureWebAppVariablesFile` (lines 271-289) to
`Temp/azureWebappVariables.txt`.  Note line 278 appends `".git"` to the
deployment URL, and line 281 writes the raw `getJiraIssueKey(context)`
value (the string "null" when the key is absent, since JS stringifies
`null` under `+`). -/
def azureWebAppVariablesFileContent (azureConfig : AzureConfig) (context : Context) : String :=
  "deploymentUrl=" ++ getDeploymentUrl azureConfig context ++ ".git\n" ++
  "webappUrl=" ++ getWebappUrl azureConfig context ++ "\n" ++
  "webappPort=443" ++ "\n" ++
  "jiraIssueKey=" ++ (match context.jiraIssueKey with | some k => k | none => "null") ++ "\n" ++
  "webappDbPrimaryConnString0=" ++ context.dbPrimaryConn0 ++ "\n" ++
  "webappDbPrimaryConnString1=" ++ context.dbPrimaryConn1 ++ "\n" ++
  "webappDbBackupConnString0=" ++ context.dbBackupConn0 ++ "\n" ++
  "webappDbBackupConnString1=" ++ context.dbBackupConn1 ++ "\n"

/-! ### Heap model for the clone/merge aliasing of lines 170-176

JavaScript objects are mutated through references, so the question whether
the five positional writes can reach `azureConfig.webapp.siteConfig` is a
question about aliasing.  We model the two mutable arrays of a `siteConfig`
object as heap cells addressed by naturals: `R.clone` allocates fresh
cells, `R.merge` builds a new object whose (shared) keys reference the
second argument's cells, and the positional writes update the cells the
merged object references. -/

/-- A heap cell: one of the two arrays a `siteConfig` object owns. -/
inductive HeapVal where
  | conns (entries : List ConnEntry)
  | apps (entries : List AppSetting)
deriving Repr, DecidableEq

/-- A heap of `siteConfig` arrays with an allocation bound: every live
address is below `nextAddr`, and allocation hands out `nextAddr` upward. -/
structure HeapState where
  heap : Nat → Option HeapVal
  nextAddr : Nat

/-- A `siteConfig` object with both array keys present, as the template's
`siteConfig` always has: references to its `connectionStrings` and
`appSettings` arrays. -/
structure SiteConfigRef where
  connRef : Nat
  appRef : Nat
deriving Repr, DecidableEq

/-- The config's `azureConfig.webapp.siteConfig` object in the JS heap.
Mirroring `SiteConfigOverride`, the `connectionStrings` key may be absent
(`connRef = none`) while `appSettings` is always present. -/
structure SiteConfigOverrideRef where
  connRef : Option Nat
  appRef : Nat
deriving Repr, DecidableEq

/-- Point update of a heap. -/
def heapUpdate (h : Nat → Option HeapVal) (a : Nat) (v : HeapVal) : Nat → Option HeapVal :=
  fun x => if x = a then some v else h x

/-- `R.clone(azureConfig.webapp.siteConfig)`: deep-copies the arrays the
config object owns into fresh cells and returns a new object referencing
the copies; a key the config lacks is also absent from the clone. -/
def cloneSiteConfig (st : HeapState) (r : SiteConfigOverrideRef) :
    JsOutcome (SiteConfigOverrideRef × HeapState) :=
  match r.connRef with
  | some cr =>
    match st.heap cr, st.heap r.appRef with
    | some v1, some v2 =>
      .completed
        (⟨some st.nextAddr, st.nextAddr + 1⟩,
         ⟨heapUpdate (heapUpdate st.heap st.nextAddr v1) (st.nextAddr + 1) v2,
          st.nextAddr + 2⟩)
    | _, _ => .thrown "TypeError: clone of a dangling reference"
  | none =>
    match st.heap r.appRef with
    | some v2 =>
      .completed
        (⟨none, st.nextAddr⟩,
         ⟨heapUpdate st.heap st.nextAddr v2, st.nextAddr + 1⟩)
    | none => .thrown "TypeError: clone of a dangling reference"

/-- The five positional writes of lines 172-176, acting on the heap through
the references held by the merged `siteConfig` object.  A write to
`arr[i].field` with `arr[i]` undefined throws in JS, so the writes complete
only when the referenced `connectionStrings` array has at least 2 entries
and the `appSettings` array at least 3. -/
def overwriteSiteConfigHeap (st : HeapState) (r : SiteConfigRef) (context : Context)
    (websiteName redis : String) : JsOutcome HeapState :=
  match st.heap r.connRef, st.heap r.appRef with
  | some (.conns cl), some (.apps al) =>
    if 2 ≤ cl.length ∧ 3 ≤ al.length then
      .completed
        ⟨heapUpdate
          (heapUpdate st.heap r.connRef
            (.conns
              (modifyNth (fun c => { c with connectionString := context.dbPrimaryConn1 }) 1
                (modifyNth (fun c => { c with connectionString := context.dbPrimaryConn0 }) 0
                  cl))))
          r.appRef
          (.apps
            (modifyNth (fun a => { a with value := redis }) 2
              (modifyNth (fun a => { a with value := context.dbBackupSchema }) 1
                (modifyNth (fun a => { a with value := websiteName ++ ".azurewebsites.net" }) 0
                  al)))),
         st.nextAddr⟩
    else .thrown "TypeError: Cannot set property of undefined"
  | _, _ => .thrown "TypeError: not a siteConfig object"

/-- Lines 170-176 at the heap level: clone the config's `siteConfig`, merge
it over the template's — `R.merge` builds a new object taking the clone's
reference for every key the clone provides and the template's reference for
the keys it lacks, so the merged `connectionStrings` reference is the
clone's fresh cell when the config provides that key and the template's own
cell otherwise — then perform the five positional writes through the merged
object.  Returns the merged object's references and the final heap. -/
def mergeCloneAndOverwrite (st : HeapState) (configSC : SiteConfigOverrideRef)
    (tmplSC : SiteConfigRef) (context : Context) (websiteName redis : String) :
    JsOutcome (SiteConfigRef × HeapState) :=
  match cloneSiteConfig st configSC with
  | .thrown m => .thrown m
  | .completed (cloneRef, st1) =>
    let mergedRef : SiteConfigRef := ⟨cloneRef.connRef.getD tmplSC.connRef, cloneRef.appRef⟩
    match overwriteSiteConfigHeap st1 mergedRef context websiteName redis with
    | .thrown m => .thrown m
    | .completed st2 => .completed (mergedRef, st2)

/-! ### Lemmas about first-occurrence search -/

theorem startsWithChars_iff (p : List Char) :
    ∀ s : List Char, startsWithChars p s = true ↔ ∃ t, s = p ++ t := by
  induction p with
  | nil =>
    intro s
    simp [startsWithChars]
  | cons a ps ih =>
    intro s
    cases s with
    | nil =>
      simp [startsWithChars]
    | cons c cs =>
      simp only [startsWithChars, Bool.and_eq_true, beq_iff_eq, ih, List.cons_append,
        List.cons.injEq]
      constructor
      · rintro ⟨rfl, t, rfl⟩
        exact ⟨t, rfl, rfl⟩
      · rintro ⟨t, rfl, rfl⟩
        exact ⟨rfl, t, rfl⟩

theorem splitFirst_eq_none_iff (pat : List Char) :
    ∀ l : List Char, splitFirst pat l = none ↔ ¬ ∃ x y, l = x ++ pat ++ y := by
  intro l
  induction l with
  | nil =>
    simp only [splitFirst]
    by_cases h : startsWithChars pat [] = true
    · rcases (startsWithChars_iff pat []).mp h with ⟨t, ht⟩
      rcases List.append_eq_nil.mp ht.symm with ⟨h1, h2⟩
      subst h1
      simp [h]
    · have hpat : pat ≠ [] := by
        intro hp
        exact h ((startsWithChars_iff pat []).mpr ⟨[], by simp [hp]⟩)
      simp only [h, if_false]
      constructor
      · rintro - ⟨x, y, hxy⟩
        rcases List.append_eq_nil.mp hxy.symm with ⟨h1, h2⟩
        rcases List.append_eq_nil.mp h1 with ⟨-, h3⟩
        exact hpat h3
      · intro
        rfl
  | cons c rest ih =>
    simp only [splitFirst]
    by_cases h : startsWithChars pat (c :: rest) = true
    · rcases (startsWithChars_iff pat (c :: rest)).mp h with ⟨t, ht⟩
      rw [if_pos h]
      constructor
      · intro habs
        exact absurd habs (by simp)
      · intro habs
        exact absurd ⟨[], t, by simpa using ht⟩ habs
    · rw [if_neg h]
      simp only [Option.map_eq_none', ih]
      constructor
      · rintro hnone ⟨x, y, hxy⟩
        cases x with
        | nil =>
          exact h ((startsWithChars_iff pat (c :: rest)).mpr ⟨y, by simpa using hxy⟩)
        | cons c0 x0 =>
          simp only [List.cons_append, List.cons.injEq] at hxy
          exact hnone ⟨x0, y, hxy.2⟩
      · rintro hno ⟨x, y, hxy⟩
        exact hno ⟨c :: x, y, by simp [hxy]⟩

theorem splitFirst_eq_some (pat : List Char) :
    ∀ l b c : List Char, splitFirst pat l = some (b, c) → l = b ++ pat ++ c := by
  intro l
  induction l with
  | nil =>
    intro b c hbc
    simp only [splitFirst] at hbc
    by_cases h : startsWithChars pat [] = true
    · rcases (startsWithChars_iff pat []).mp h with ⟨t, ht⟩
      rcases List.append_eq_nil.mp ht.symm with ⟨h1, h2⟩
      simp only [h, if_true, Option.some.injEq, Prod.mk.injEq] at hbc
      simp [← hbc.1, ← hbc.2, h1]
    · simp [h] at hbc
  | cons c0 rest ih =>
    intro b c hbc
    simp only [splitFirst] at hbc
    by_cases h : startsWithChars pat (c0 :: rest) = true
    · rcases (startsWithChars_iff pat (c0 :: rest)).mp h with ⟨t, ht⟩
      rw [if_pos h] at hbc
      simp only [Option.some.injEq, Prod.mk.injEq] at hbc
      rw [← hbc.1, ← hbc.2, ht, List.drop_left]
      simp
    · rw [if_neg h] at hbc
      rw [Option.map_eq_some'] at hbc
      rcases hbc with ⟨⟨b0, c1⟩, hsome, heq⟩
      simp only [Prod.mk.injEq] at heq
      rw [← heq.1, ← heq.2]
      simpa using congrArg (c0 :: ·) (ih b0 c1 hsome)

/-! ### Sample fixtures used to instantiate the theorems -/

/-- A representative `azureConfig.webapp.siteConfig` override: no
`connectionStrings` key, three `appSettings` entries, the third being the
Redis connection string with the `database=9` placeholder. -/
def sampleSiteConfigOverride : SiteConfigOverride :=
  { connectionStrings := none
    appSettings :=
      [⟨"WEBSITE_HOST", "placeholder"⟩, ⟨"BACKUP_SCHEMA", "placeholder"⟩,
       ⟨"REDIS_CONN", "redis.example.net,ssl=true,database=9"⟩]
    otherSettings := [] }

/-- A representative azure configuration with prefix `APP`, parameterized by
the scm user and password so that theorems can show which of the two a URL
embeds. -/
def sampleConfigWith (u p : String) : AzureConfig :=
  { envPfx := "APP"
    resource_group := some "qa-group"
    resource_type := "Microsoft.Web/sites"
    scm_user := u
    scm_password := p
    webapp :=
      { location := "australiaeast"
        serverFarmId := "farm-1"
        siteConfig := sampleSiteConfigOverride } }

/-- A representative azure configuration. -/
def sampleConfig : AzureConfig := sampleConfigWith "deployuser" "hunter2"

/-- A representative pipeline context carrying Jira issue key `PROJ-42`. -/
def sampleContext : Context :=
  { jiraIssueKey := some "PROJ-42"
    dbPrimaryConn0 := "Server=primary0"
    dbPrimaryConn1 := "Server=primary1"
    dbBackupConn0 := "Server=backup0"
    dbBackupConn1 := "Server=backup1"
    dbBackupSchema := "bak_schema" }

/-! ### Claim theorems -/

/-- C1: for every prefix and every non-empty Jira issue key, the environment
name is `lowercase(prefix + "-" + key + "-qa")`; for an absent (`none`) or
empty key it is `lowercase(prefix + "-qa")`; and the result is a pure
function of the config prefix and the key, so any two configs sharing the
prefix give identical names on every call. -/
theorem c1_getWebsiteName_derivation (cfg cfg' : AzureConfig) (K : String)
    (hpfx : cfg.envPfx = cfg'.envPfx) :
    (K ≠ "" → getWebsiteName cfg (some K) = jsToLowerCase (cfg.envPfx ++ "-" ++ K ++ "-qa")) ∧
    getWebsiteName cfg none = jsToLowerCase (cfg.envPfx ++ "-qa") ∧
    getWebsiteName cfg (some "") = jsToLowerCase (cfg.envPfx ++ "-qa") ∧
    (∀ k, getWebsiteName cfg k = getWebsiteName cfg' k) := by
  refine ⟨?_, ?_, ?_, ?_⟩
  · intro hK
    simp [getWebsiteName, hK]
  · simp [getWebsiteName]
  · simp [getWebsiteName]
  · intro k
    cases k with
    | none => simp [getWebsiteName, hpfx]
    | some s => simp [getWebsiteName, hpfx]

/-- Witness for C1 at prefix `APP` and key `PROJ-42`. -/
theorem c1_witness :
    (sampleConfig.envPfx = (sampleConfigWith "other" "pw").envPfx) ∧
    ("PROJ-42" ≠ "") ∧
    (getWebsiteName sampleConfig (some "PROJ-42") =
      jsToLowerCase (sampleConfig.envPfx ++ "-" ++ "PROJ-42" ++ "-qa")) :=
  ⟨rfl, by decide,
    (c1_getWebsiteName_derivation sampleConfig (sampleConfigWith "other" "pw") "PROJ-42"
      rfl).1 (by decide)⟩

/-- C3 (code bug): on an empty subscription list the code does not deliver
the NoSubscriptionError through the callback; `res[0]` is `undefined`, the
`.subscriptionId` read throws a TypeError inside the promise handler, and
the callback is never invoked.  The error callback fires only when the
first entry exists but its id is missing (`undefined`) or blank; a present
non-blank id is passed through with the credentials. -/
theorem c3_getSubscriptionId_empty_list_throws :
    getSubscriptionId ("credentials-token" : String) [] =
        JsOutcome.thrown "TypeError: Cannot read property subscriptionId of undefined" ∧
    getSubscriptionId ("credentials-token" : String) [⟨some ""⟩] =
        JsOutcome.completed (.err "No subscriptions available for this user.") ∧
    getSubscriptionId ("credentials-token" : String) [⟨none⟩] =
        JsOutcome.completed (.err "No subscriptions available for this user.") ∧
    getSubscriptionId ("credentials-token" : String) [⟨some "sub-1"⟩, ⟨some "sub-2"⟩] =
        JsOutcome.completed (.ok "credentials-token" "sub-1") := by
  refine ⟨rfl, ?_, rfl, ?_⟩ <;> decide

/-- C4: when the infrastructure delete resolves, the external schema-delete
collaborator is invoked exactly once with the same context (and no error is
put on the callback's error channel by this function); when it rejects, the
collaborator is never invoked and the original error is returned unmodified
through the callback. -/
theorem c4_deleteEnvironment_spec (apiResult : Except String Unit) (context : Context) :
    (apiResult = Except.ok () → deleteEnvironment apiResult context = ([context], none)) ∧
    (∀ e, apiResult = Except.error e → deleteEnvironment apiResult context = ([], some e)) := by
  constructor
  · rintro rfl
    rfl
  · rintro e rfl
    rfl

/-- Witness for C4: one successful and one failed infrastructure delete. -/
theorem c4_witness :
    (deleteEnvironment (Except.ok ()) sampleContext = ([sampleContext], none)) ∧
    (deleteEnvironment (Except.error "api down") sampleContext = ([], some "api down")) :=
  ⟨(c4_deleteEnvironment_spec (Except.ok ()) sampleContext).1 rfl,
   (c4_deleteEnvironment_spec (Except.error "api down") sampleContext).2 "api down" rfl⟩

/-- C5: for every environment name and every value of the random draw, the
chosen Redis database index is 1 exactly when the name equals the default
(no-issue-key) name derived from the config, and for every other name the
index lies in {2, ..., 9}. -/
theorem c5_redisDatabaseIndex_spec (cfg : AzureConfig) (websiteName : String) (draw : Nat)
    (hdraw : draw ≤ 7) :
    (redisDatabaseIndex cfg websiteName draw = 1 ↔
      websiteName = getWebsiteName cfg (some "")) ∧
    (websiteName ≠ getWebsiteName cfg (some "") →
      2 ≤ redisDatabaseIndex cfg websiteName draw ∧
        redisDatabaseIndex cfg websiteName draw ≤ 9) := by
  unfold redisDatabaseIndex
  by_cases h : websiteName = getWebsiteName cfg (some "")
  · rw [if_pos h]
    exact ⟨⟨fun _ => h, fun _ => rfl⟩, fun hc => absurd h hc⟩
  · rw [if_neg h]
    refine ⟨⟨fun hc => absurd hc (by omega), fun hc => absurd hc h⟩, fun _ => ⟨?_, ?_⟩⟩ <;> omega

/-- Witness for C5: draw 3 and a non-default environment name. -/
theorem c5_witness :
    (3 ≤ 7) ∧
    ((redisDatabaseIndex sampleConfig "app-other-qa" 3 = 1 ↔
        "app-other-qa" = getWebsiteName sampleConfig (some "")) ∧
      ("app-other-qa" ≠ getWebsiteName sampleConfig (some "") →
        2 ≤ redisDatabaseIndex sampleConfig "app-other-qa" 3 ∧
          redisDatabaseIndex sampleConfig "app-other-qa" 3 ≤ 9)) :=
  ⟨by decide, c5_redisDatabaseIndex_spec sampleConfig "app-other-qa" 3 (by decide)⟩

/-- C6: validateGroupAccess fails with the config error whenever the
configured resource_group is unset (`none`) or empty, regardless of
credentials, subscription id or group listing; with a configured group it
fails with the access error when the group name is absent from a non-empty
returned list, and succeeds passing the credentials and subscription id
through unchanged when the group is present. -/
theorem c6_validateGroupAccess_spec (cfg : AzureConfig) (cred : String) (sid : String)
    (groups : List ResourceGroup) :
    (cfg.resource_group = none ∨ cfg.resource_group = some "" →
      ∀ gs : Option (List ResourceGroup),
        validateGroupAccess cfg cred sid gs =
          JsOutcome.completed
            (.err "No resource_group has been specified in your config file.")) ∧
    (∀ rg, cfg.resource_group = some rg → rg ≠ "" → groups ≠ [] →
      (∀ g ∈ groups, g.name ≠ rg) →
      validateGroupAccess cfg cred sid (some groups) =
        JsOutcome.completed
          (.err "This user doesn't have access to the specified group.")) ∧
    (∀ rg g, cfg.resource_group = some rg → rg ≠ "" → g ∈ groups → g.name = rg →
      validateGroupAccess cfg cred sid (some groups) =
        JsOutcome.completed (.ok cred sid)) := by
  refine ⟨?_, ?_, ?_⟩
  · rintro (h | h) gs <;> simp [validateGroupAccess, h]
  · intro rg hrg hne hgs hall
    have hfil : groups.filter (fun group => group.name == rg) = [] :=
      List.filter_eq_nil_iff.mpr (fun g hg => by simpa using hall g hg)
    simp [validateGroupAccess, hrg, hne, hgs, hfil]
  · intro rg g hrg hne hg hname
    have hmem : g ∈ groups.filter (fun group => group.name == rg) :=
      List.mem_filter.mpr ⟨hg, by simp [hname]⟩
    have hfne : groups.filter (fun group => group.name == rg) ≠ [] := by
      intro h0
      rw [h0] at hmem
      exact (List.not_mem_nil g) hmem
    have hgs : groups ≠ [] := by
      intro h0
      rw [h0] at hg
      exact (List.not_mem_nil g) hg
    simp [validateGroupAccess, hrg, hne, hgs, hfne]

/-- Witness for C6: unset resource group, group absent from a non-empty
list, and group present. -/
theorem c6_witness :
    (validateGroupAccess { sampleConfig with resource_group := none } ("cred" : String) "sub-1"
        (some [⟨"qa-group"⟩]) =
      JsOutcome.completed
        (.err "No resource_group has been specified in your config file.")) ∧
    (validateGroupAccess sampleConfig ("cred" : String) "sub-1" (some [⟨"other-group"⟩]) =
      JsOutcome.completed
        (.err "This user doesn't have access to the specified group.")) ∧
    (validateGroupAccess sampleConfig ("cred" : String) "sub-1" (some [⟨"qa-group"⟩]) =
      JsOutcome.completed (.ok "cred" "sub-1")) :=
  ⟨(c6_validateGroupAccess_spec { sampleConfig with resource_group := none } "cred" "sub-1"
      []).1 (Or.inl rfl) (some [⟨"qa-group"⟩]),
   (c6_validateGroupAccess_spec sampleConfig "cred" "sub-1" [⟨"other-group"⟩]).2.1
      "qa-group" rfl (by decide) (by decide) (by decide),
   (c6_validateGroupAccess_spec sampleConfig "cred" "sub-1" [⟨"qa-group"⟩]).2.2
      "qa-group" ⟨"qa-group"⟩ rfl (by decide) (by decide) rfl⟩

/-- C2: for a merged payload with two connection-string slots and three
app-setting slots, the five positional overwrites of lines 172-176 set
exactly `connectionStrings[0/1].connectionString` to the two primary
database connection strings, `appSettings[0].value` to the environment
host, `appSettings[1].value` to the backup schema and `appSettings[2].value`
to the Redis connection string; every other field of the template — the
entries' names and types, the remaining `siteConfig` keys, and the
template's other fields — is left as the merge produced it. -/
theorem c2_buildAzureEnvTemplate_overwrites (cfg : AzureConfig) (context : Context)
    (tmpl : WebappTemplate) (websiteName : String) (draw : Nat)
    (c0 c1 : ConnEntry) (a0 a1 a2 : AppSetting) (redis : String)
    (hconn : (mergeSiteConfig tmpl.siteConfig cfg.webapp.siteConfig).connectionStrings =
      [c0, c1])
    (happ : (mergeSiteConfig tmpl.siteConfig cfg.webapp.siteConfig).appSettings =
      [a0, a1, a2])
    (hredis : getRedisAppConnectionString cfg websiteName draw = .completed redis) :
    buildAzureEnvTemplate cfg context tmpl websiteName draw =
      JsOutcome.completed
        { tmpl with
          location := cfg.webapp.location
          serverFarmId := cfg.webapp.serverFarmId
          siteConfig :=
            { mergeSiteConfig tmpl.siteConfig cfg.webapp.siteConfig with
              connectionStrings :=
                [{ c0 with connectionString := context.dbPrimaryConn0 },
                 { c1 with connectionString := context.dbPrimaryConn1 }]
              appSettings :=
                [{ a0 with value := websiteName ++ ".azurewebsites.net" },
                 { a1 with value := context.dbBackupSchema },
                 { a2 with value := redis }] } } := by
  unfold buildAzureEnvTemplate
  rw [hredis]
  unfold applySiteConfigOverwrites
  rw [hconn, happ]
  rfl

/-- Witness for C2 on a concrete template with two connection-string slots
and three app-setting slots. -/
theorem c2_witness :
    ((mergeSiteConfig
        { connectionStrings :=
            [⟨"db0", "tmpl0", "SQLAzure"⟩, ⟨"db1", "tmpl1", "SQLAzure"⟩]
          appSettings := [⟨"h", ""⟩, ⟨"b", ""⟩, ⟨"r", ""⟩]
          otherSettings := [("alwaysOn", "true")] }
        sampleConfig.webapp.siteConfig).connectionStrings =
      [⟨"db0", "tmpl0", "SQLAzure"⟩, ⟨"db1", "tmpl1", "SQLAzure"⟩]) ∧
    ((mergeSiteConfig
        { connectionStrings :=
            [⟨"db0", "tmpl0", "SQLAzure"⟩, ⟨"db1", "tmpl1", "SQLAzure"⟩]
          appSettings := [⟨"h", ""⟩, ⟨"b", ""⟩, ⟨"r", ""⟩]
          otherSettings := [("alwaysOn", "true")] }
        sampleConfig.webapp.siteConfig).appSettings =
      [⟨"WEBSITE_HOST", "placeholder"⟩, ⟨"BACKUP_SCHEMA", "placeholder"⟩,
       ⟨"REDIS_CONN", "redis.example.net,ssl=true,database=9"⟩]) ∧
    (buildAzureEnvTemplate sampleConfig sampleContext
        { location := "tmpl-loc"
          serverFarmId := "tmpl-farm"
          siteConfig :=
            { connectionStrings :=
                [⟨"db0", "tmpl0", "SQLAzure"⟩, ⟨"db1", "tmpl1", "SQLAzure"⟩]
              appSettings := [⟨"h", ""⟩, ⟨"b", ""⟩, ⟨"r", ""⟩]
              otherSettings := [("alwaysOn", "true")] }
          otherFields := [("kind", "app")] }
        "app-proj-42-qa" 3 =
      JsOutcome.completed
        { location := "australiaeast"
          serverFarmId := "farm-1"
          siteConfig :=
            { connectionStrings :=
                [⟨"db0", "Server=primary0", "SQLAzure"⟩,
                 ⟨"db1", "Server=primary1", "SQLAzure"⟩]
              appSettings :=
                [⟨"WEBSITE_HOST", "app-proj-42-qa.azurewebsites.net"⟩,
                 ⟨"BACKUP_SCHEMA", "bak_schema"⟩,
                 ⟨"REDIS_CONN", "redis.example.net,ssl=true,database=5"⟩]
              otherSettings := [("alwaysOn", "true")] }
          otherFields := [("kind", "app")] }) := by
  refine ⟨by decide, by decide, ?_⟩
  have h :=
    c2_buildAzureEnvTemplate_overwrites sampleConfig sampleContext
      { location := "tmpl-loc"
        serverFarmId := "tmpl-farm"
        siteConfig :=
          { connectionStrings :=
              [⟨"db0", "tmpl0", "SQLAzure"⟩, ⟨"db1", "tmpl1", "SQLAzure"⟩]
            appSettings := [⟨"h", ""⟩, ⟨"b", ""⟩, ⟨"r", ""⟩]
            otherSettings := [("alwaysOn", "true")] }
        otherFields := [("kind", "app")] }
      "app-proj-42-qa" 3
      ⟨"db0", "tmpl0", "SQLAzure"⟩ ⟨"db1", "tmpl1", "SQLAzure"⟩
      ⟨"WEBSITE_HOST", "placeholder"⟩ ⟨"BACKUP_SCHEMA", "placeholder"⟩
      ⟨"REDIS_CONN", "redis.example.net,ssl=true,database=9"⟩
      "redis.example.net,ssl=true,database=5"
      (by rfl) (by rfl) (by decide)
  rw [h]
  decide

/-- C7: with prefix `APP` and issue key `PROJ-42`, the environment name is
`app-proj-42-qa`, the web app URL is
`https://app-proj-42-qa.azurewebsites.net`, and the deployment URL written
to the variables file is `https://` + the scm user +
`@app-proj-42-qa.scm.azurewebsites.net:443/app-proj-42-qa.git`, embedding
the scm username only — the result is the same for every value of the scm
password. -/
theorem c7_end_to_end_urls (u p : String) :
    getWebsiteName (sampleConfigWith u p) (some "PROJ-42") = "app-proj-42-qa" ∧
    getWebappUrl (sampleConfigWith u p) sampleContext =
      "https://app-proj-42-qa.azurewebsites.net" ∧
    getDeploymentUrl (sampleConfigWith u p) sampleContext ++ ".git" =
      "https://" ++ u ++ "@app-proj-42-qa.scm.azurewebsites.net:443/app-proj-42-qa.git" := by
  refine ⟨by rfl, by rfl, ?_⟩
  have hname :
      getWebsiteName (sampleConfigWith u p) (some (sampleContext.jiraIssueKey.getD "")) =
        "app-proj-42-qa" := by rfl
  simp only [getDeploymentUrl, getWebsiteSCMURLWithUser, sampleConfigWith, hname]
  simp only [String.append_assoc]
  congr 2

/-- C8 (code bug): when the template file is absent or unparseable,
`require` throws synchronously (`MODULE_NOT_FOUND` / `SyntaxError`), so the
callback never receives the InvalidTemplateError; the guarded
`callback("Invalid azure environment", websiteName)` path runs only when
the file loads to a nil value (JSON `null`).  In both cases the
provisioning call is not made. -/
theorem c8_createOrUpdateEnvironment_template_load :
    (createOrUpdateEnvironmentLoadPhase
        (Except.error "Cannot find module webapp.json")
        sampleConfig sampleContext "app-proj-42-qa" 3 =
      CreatePhase.thrown "Cannot find module webapp.json") ∧
    (createOrUpdateEnvironmentLoadPhase (Except.ok none)
        sampleConfig sampleContext "app-proj-42-qa" 3 =
      CreatePhase.invalidTemplate "Invalid azure environment" "app-proj-42-qa") :=
  ⟨rfl, rfl⟩

/-- C9: `getRedisAppConnectionString` returns the configured
`appSettings[2]` value unchanged when it does not contain the substring
`database=9` (so the chosen index has no effect), and otherwise returns the
value with the first `database=9` occurrence replaced by `database=` and
the chosen index. -/
theorem c9_getRedisAppConnectionString_spec (cfg : AzureConfig) (websiteName : String)
    (draw : Nat) (a : AppSetting)
    (ha : cfg.webapp.siteConfig.appSettings.get? 2 = some a) :
    ((¬ ∃ x y, a.value.data = x ++ "database=9".data ++ y) →
      getRedisAppConnectionString cfg websiteName draw = JsOutcome.completed a.value) ∧
    ((∃ x y, a.value.data = x ++ "database=9".data ++ y) →
      ∃ b c, a.value.data = b ++ "database=9".data ++ c ∧
        getRedisAppConnectionString cfg websiteName draw =
          JsOutcome.completed
            ⟨b ++ ("database=" ++
                toString (redisDatabaseIndex cfg websiteName draw)).data ++ c⟩) := by
  unfold getRedisAppConnectionString
  rw [ha]
  constructor
  · intro hno
    have hnone : splitFirst "database=9".data a.value.data = none :=
      (splitFirst_eq_none_iff _ _).mpr hno
    simp [jsReplaceFirst, hnone]
  · intro hex
    cases hsome : splitFirst "database=9".data a.value.data with
    | none => exact absurd hex ((splitFirst_eq_none_iff _ _).mp hsome)
    | some bc =>
      obtain ⟨b, c⟩ := bc
      refine ⟨b, c, splitFirst_eq_some _ _ _ _ hsome, ?_⟩
      simp [jsReplaceFirst, hsome]

/-- Witness for C9 on the sample config, whose configured Redis value
contains `database=9`. -/
theorem c9_witness :
    (sampleConfig.webapp.siteConfig.appSettings.get? 2 =
      some ⟨"REDIS_CONN", "redis.example.net,ssl=true,database=9"⟩) ∧
    (∃ b c,
      (AppSetting.mk "REDIS_CONN" "redis.example.net,ssl=true,database=9").value.data =
          b ++ "database=9".data ++ c ∧
        getRedisAppConnectionString sampleConfig "app-proj-42-qa" 3 =
          JsOutcome.completed
            ⟨b ++ ("database=" ++
                toString (redisDatabaseIndex sampleConfig "app-proj-42-qa" 3)).data ++ c⟩) :=
  ⟨rfl,
    (c9_getRedisAppConnectionString_spec sampleConfig "app-proj-42-qa" 3
        ⟨"REDIS_CONN", "redis.example.net,ssl=true,database=9"⟩ rfl).2
      ⟨"redis.example.net,ssl=true,".data, [], by decide⟩⟩

/-- C10: the merge step deep-clones the config's `siteConfig`, so the five
positional writes mutate only the cells the merged object references — the
fresh clone cells when the config provides the key, the template's own
`connectionStrings` cell when the config omits it — and the configuration's
own cells are unchanged afterwards in either case.  (The template's array
and the config's arrays are distinct objects in the JS heap, hence the
address-disjointness hypotheses in the omitted-key case.) -/
theorem c10_mergeCloneAndOverwrite_preserves_config
    (st : HeapState) (configSC : SiteConfigOverrideRef) (tmplSC : SiteConfigRef)
    (context : Context) (websiteName redis : String) :
    (∀ cr cl al, configSC.connRef = some cr →
      cr < st.nextAddr → configSC.appRef < st.nextAddr →
      st.heap cr = some (HeapVal.conns cl) →
      st.heap configSC.appRef = some (HeapVal.apps al) →
      2 ≤ cl.length → 3 ≤ al.length →
      ∃ st', mergeCloneAndOverwrite st configSC tmplSC context websiteName redis =
          JsOutcome.completed (⟨st.nextAddr, st.nextAddr + 1⟩, st') ∧
        st'.heap cr = st.heap cr ∧
        st'.heap configSC.appRef = st.heap configSC.appRef) ∧
    (∀ tcl al, configSC.connRef = none →
      configSC.appRef < st.nextAddr →
      tmplSC.connRef < st.nextAddr → tmplSC.connRef ≠ configSC.appRef →
      st.heap tmplSC.connRef = some (HeapVal.conns tcl) →
      st.heap configSC.appRef = some (HeapVal.apps al) →
      2 ≤ tcl.length → 3 ≤ al.length →
      ∃ st', mergeCloneAndOverwrite st configSC tmplSC context websiteName redis =
          JsOutcome.completed (⟨tmplSC.connRef, st.nextAddr⟩, st') ∧
        st'.heap configSC.appRef = st.heap configSC.appRef) := by
  constructor
  · intro cr cl al hcr hlc hla hc ha hlen1 hlen2
    have h1 : st.nextAddr ≠ st.nextAddr + 1 := by omega
    have h2 : cr ≠ st.nextAddr := by omega
    have h3 : cr ≠ st.nextAddr + 1 := by omega
    have h4 : configSC.appRef ≠ st.nextAddr := by omega
    have h5 : configSC.appRef ≠ st.nextAddr + 1 := by omega
    simp only [mergeCloneAndOverwrite, cloneSiteConfig, overwriteSiteConfigHeap,
      hcr, hc, ha, heapUpdate, Option.getD_some, h1, h2, h3, h4, h5, hlen1, hlen2,
      if_true, if_false, ite_true, ite_false, eq_self_iff_true, and_self]
    exact ⟨_, rfl, by simp [heapUpdate, h2, h3, hc], by simp [heapUpdate, h4, h5, ha]⟩
  · intro tcl al hnone hla hlt hne hc ha hlen1 hlen2
    have h4 : configSC.appRef ≠ st.nextAddr := by omega
    have h6 : tmplSC.connRef ≠ st.nextAddr := by omega
    have h7 : configSC.appRef ≠ tmplSC.connRef := Ne.symm hne
    simp only [mergeCloneAndOverwrite, cloneSiteConfig, overwriteSiteConfigHeap,
      hnone, hc, ha, heapUpdate, Option.getD_none, h4, h6, h7, hlen1, hlen2,
      if_true, if_false, ite_true, ite_false, eq_self_iff_true, and_self]
    exact ⟨_, rfl, by simp [heapUpdate, h4, h7, ha]⟩

/-- A two-cell heap holding a `connectionStrings` array at address 0 and an
`appSettings` array at address 1. -/
def sampleHeap : HeapState :=
  { heap := fun x =>
      if x = 0 then
        some (HeapVal.conns [⟨"db0", "orig0", "SQLAzure"⟩, ⟨"db1", "orig1", "SQLAzure"⟩])
      else if x = 1 then
        some (HeapVal.apps
          [⟨"WEBSITE_HOST", "placeholder"⟩, ⟨"BACKUP_SCHEMA", "placeholder"⟩,
           ⟨"REDIS_CONN", "database=9"⟩])
      else none
    nextAddr := 2 }

/-- Witness for C10 on the two-cell sample heap, exercising both merge
cases: a config providing `connectionStrings` (fresh clone cells mutated)
and a config omitting it (the template's cell at address 0 mutated, the
config's `appSettings` cell at address 1 untouched). -/
theorem c10_witness :
    (∃ st', mergeCloneAndOverwrite sampleHeap ⟨some 0, 1⟩ ⟨0, 1⟩ sampleContext
          "app-proj-42-qa" "redis-conn" =
        JsOutcome.completed (⟨sampleHeap.nextAddr, sampleHeap.nextAddr + 1⟩, st') ∧
      st'.heap 0 = sampleHeap.heap 0 ∧ st'.heap 1 = sampleHeap.heap 1) ∧
    (∃ st', mergeCloneAndOverwrite sampleHeap ⟨none, 1⟩ ⟨0, 1⟩ sampleContext
          "app-proj-42-qa" "redis-conn" =
        JsOutcome.completed (⟨0, sampleHeap.nextAddr⟩, st') ∧
      st'.heap 1 = sampleHeap.heap 1) :=
  ⟨(c10_mergeCloneAndOverwrite_preserves_config sampleHeap ⟨some 0, 1⟩ ⟨0, 1⟩
        sampleContext "app-proj-42-qa" "redis-conn").1
      0
      [⟨"db0", "orig0", "SQLAzure"⟩, ⟨"db1", "orig1", "SQLAzure"⟩]
      [⟨"WEBSITE_HOST", "placeholder"⟩, ⟨"BACKUP_SCHEMA", "placeholder"⟩,
       ⟨"REDIS_CONN", "database=9"⟩]
      rfl (by decide) (by decide) (by rfl) (by rfl) (by decide) (by decide),
   (c10_mergeCloneAndOverwrite_preserves_config sampleHeap ⟨none, 1⟩ ⟨0, 1⟩
        sampleContext "app-proj-42-qa" "redis-conn").2
      [⟨"db0", "orig0", "SQLAzure"⟩, ⟨"db1", "orig1", "SQLAzure"⟩]
      [⟨"WEBSITE_HOST", "placeholder"⟩, ⟨"BACKUP_SCHEMA", "placeholder"⟩,
       ⟨"REDIS_CONN", "database=9"⟩]
      rfl (by decide) (by decide) (by decide) (by rfl) (by rfl)
      (by decide) (by decide)⟩

end AzureEnvironmentManager
